import Mathlib

/-!
Shallow embedding of the octant `printer` package excerpt
(`internal/modules/overview/printer/job.go`, `secret.go`, and the
replication-controller printer file), together with the view-component
constructors they use.  Go pointer arguments are `Option`, machine
integers (`int32`) are `Int`, byte slices are `List Nat`, `map[string]T`
is an association list with distinct keys, and `time.Time` is an `Int`
tick value.  A Go call that can `panic` (a nil-pointer dereference) is a
distinguished outcome of `GoResult`, aside the normal value and the
`error` return.
-/

namespace Octant

/-- Errors as built by the `errors` package: `errors.New msg`, or
`errors.Wrap err msg` / `errors.Wrapf` which annotate an inner error. -/
inductive GoErr where
  | new : String → GoErr
  | wrap : String → GoErr → GoErr
deriving DecidableEq, Repr

/-- Outcome of a Go call: a normal value, an error return, or a runtime
panic (nil-pointer dereference). -/
inductive GoResult (α : Type) where
  | ok : α → GoResult α
  | error : GoErr → GoResult α
  | panicked : GoResult α
deriving DecidableEq, Repr

/-- Leaf view components built by the printers
(`pkg/view/component`): text, labels, timestamps, links returned by the
injected link resolver, container lists and selector lists. -/
inductive Component where
  | text : String → Component
  | labels : List (String × String) → Component
  | timestamp : Int → Component
  | link : String → String → String → Component
  | containers : List (String × String) → Component
  | selectors : List (String × String) → Component
deriving DecidableEq, Repr

/-- A table row: column name to component, in the order the handler
fills the cells (`component.TableRow` is a map; the handlers write each
cell exactly once). -/
abbrev TableRow := List (String × Component)

/-- `component.Table`: title, placeholder shown when empty, column
names, and the rows in the order `Add` appended them. -/
structure Table where
  title : String
  placeholder : String
  cols : List String
  rows : List TableRow
deriving DecidableEq, Repr

/-- `component.NewTable`. -/
def Table.new (title placeholder : String) (cols : List String) : Table :=
  ⟨title, placeholder, cols, []⟩

/-- `Table.Add` appends a row. -/
def Table.add (t : Table) (r : TableRow) : Table :=
  { t with rows := t.rows ++ [r] }

/-- One section of a `component.Summary`. -/
structure SummarySection where
  header : String
  content : Component
deriving DecidableEq, Repr

/-- `component.Summary`: a titled ordered list of sections. -/
structure Summary where
  title : String
  sections : List SummarySection
deriving DecidableEq, Repr

/-- `SummarySections.Add` appends a section. -/
def sectionsAdd (ss : List SummarySection) (h : String) (c : Component) :
    List SummarySection :=
  ss ++ [⟨h, c⟩]

/-- An owner reference of a Kubernetes object
(`metav1.OwnerReference`): apiVersion, kind, name, and the optional
`Controller` flag. -/
structure OwnerReference where
  apiVersion : String
  kind : String
  name : String
  controller : Option Bool
deriving DecidableEq, Repr

/-- `batchv1.Job`: the fields the job printer reads.  Pointer-typed
fields of the Go API object (`Spec.Completions`, `Spec.BackoffLimit`,
`Spec.Parallelism`, `Status.StartTime`, `Status.CompletionTime`) are
`Option`. -/
structure Job where
  name : String
  nspace : String
  labels : List (String × String)
  creationTimestamp : Int
  completions : Option Int
  backoffLimit : Option Int
  parallelism : Option Int
  succeeded : Int
  startTime : Option Int
  completionTime : Option Int
  ownerReferences : List OwnerReference
deriving DecidableEq, Repr

/-- `batchv1.JobList`. -/
structure JobList where
  items : List Job
deriving DecidableEq, Repr

/-- `corev1.Secret`: name, labels, type, the `Data` map (keys to byte
values, keys distinct), and creation timestamp. -/
structure Secret where
  name : String
  labels : List (String × String)
  secretType : String
  data : List (String × List Nat)
  creationTimestamp : Int
deriving DecidableEq, Repr

/-- `corev1.SecretList`. -/
structure SecretList where
  items : List Secret
deriving DecidableEq, Repr

/-- The pod template spec of a replication controller, reduced to the
container (name, image) pairs the printer reads. -/
structure PodTemplate where
  containers : List (String × String)
deriving DecidableEq, Repr

/-- `corev1.ReplicationController`: the fields the printer reads.
`Spec.Template` and `Spec.Replicas` are pointers in the Go API, hence
`Option`. -/
structure ReplicationController where
  name : String
  nspace : String
  labels : List (String × String)
  creationTimestamp : Int
  ownerReferences : List OwnerReference
  specReplicas : Option Int
  selector : List (String × String)
  template : Option PodTemplate
  statusReplicas : Int
  availableReplicas : Int
  readyReplicas : Int
deriving DecidableEq, Repr

/-- `corev1.ReplicationControllerList`. -/
structure ReplicationControllerList where
  items : List ReplicationController
deriving DecidableEq, Repr

/-- `store.Key` as built by `createJobListView`: namespace, apiVersion
and kind. -/
structure StoreKey where
  nspace : String
  apiVersion : String
  kind : String
deriving DecidableEq, Repr

/-- The rendering options bundle (`printer.Options`): the injected link
resolver (`opts.Link.ForObject` / `ForOwner`, viewed at each object
type it is called on), the object store (`DashConfig.ObjectStore`,
whose `List` is modelled as returning the already-converted typed
jobs), and the `DisableLabels` flag.  All of these are external
interfaces injected by the caller. -/
structure Options where
  disableLabels : Bool
  linkForJob : Job → String → Except GoErr Component
  linkForSecret : Secret → String → Except GoErr Component
  linkForRC : ReplicationController → String → Except GoErr Component
  linkForOwner : ReplicationController → OwnerReference → Except GoErr Component
  storeList : StoreKey → Except GoErr (List Job)

/-- Modelled from the spec: `conversion.PtrInt32ToString`
(`internal/conversion`, not part of this excerpt) renders a possibly
nil `*int32` as its decimal string, with a fixed placeholder for nil. -/
def ptrInt32ToString : Option Int → String
  | none => "none"
  | some n => toString n

/-- `fmt.Sprintf` with a single decimal verb. -/
def sprintfD (n : Int) : String := toString n

/-- `JobCols` of job.go. -/
def JobCols : List String :=
  ["Name", "Labels", "Completions", "Successful", "Age"]

/-- The row `JobListHandler` builds for one job, once the name link has
been resolved. -/
def jobRowWith (nameLink : Component) (job : Job) : TableRow :=
  [("Name", nameLink),
   ("Labels", Component.labels job.labels),
   ("Completions", Component.text (ptrInt32ToString job.completions)),
   ("Successful", Component.text (sprintfD job.succeeded)),
   ("Age", Component.timestamp job.creationTimestamp)]

/-- The loop of `JobListHandler` over `list.Items`: resolve the name
link for each job; on error return it at once, otherwise append the
row to the table. -/
def jobListLoop (opts : Options) : List Job → Table → GoResult Table
  | [], table => .ok table
  | job :: rest, table =>
    match opts.linkForJob job job.name with
    | .error e => .error e
    | .ok nameLink => jobListLoop opts rest (table.add (jobRowWith nameLink job))

/-- `JobListHandler` of job.go: nil list is an error; otherwise build
the Jobs table row by row. -/
def JobListHandler (list : Option JobList) (opts : Options) : GoResult Table :=
  match list with
  | none => .error (.new "job list is nil")
  | some l =>
    jobListLoop opts l.items
      (Table.new "Jobs" "We couldn\x27t find any jobs!" JobCols)

/-- `createJobConfiguration` of job.go: always the three sections Back
Off Limit, Completions, Parallelism, in that order. -/
def createJobConfiguration (job : Job) : GoResult Summary :=
  let sections : List SummarySection := []
  let sections := sectionsAdd sections "Back Off Limit"
    (Component.text (ptrInt32ToString job.backoffLimit))
  let sections := sectionsAdd sections "Completions"
    (Component.text (ptrInt32ToString job.completions))
  let sections := sectionsAdd sections "Parallelism"
    (Component.text (ptrInt32ToString job.parallelism))
  .ok ⟨"Configuration", sections⟩

/-- `createJobStatus` of job.go: Started and Completed sections exactly
when the corresponding time pointer is non-nil, then the Succeeded
count. -/
def createJobStatus (job : Job) : GoResult Summary :=
  let sections : List SummarySection := []
  let sections :=
    match job.startTime with
    | some startTime => sectionsAdd sections "Started" (Component.timestamp startTime)
    | none => sections
  let sections :=
    match job.completionTime with
    | some completionTime => sectionsAdd sections "Completed" (Component.timestamp completionTime)
    | none => sections
  let sections := sectionsAdd sections "Succeeded"
    (Component.text (sprintfD job.succeeded))
  .ok ⟨"Status", sections⟩

/-- `JobHandler` of job.go.  It has no nil check: its first act is
`createJobConfiguration(*job)`, so a nil job is a nil-pointer
dereference, i.e. a panic.  The non-nil path registers the two
summaries and further deferred items on an object builder; `NewObject`
and `ToComponent` are outside this excerpt, so (modelled from the spec:
the builder assembles the registered parts into an immutable component
tree) the successful assembly is abstracted into an opaque marker
component carrying the two summary titles. -/
def JobHandler (job : Option Job) (_opts : Options) : GoResult Component :=
  match job with
  | none => .panicked
  | some j =>
    match createJobConfiguration j with
    | .error e => .error e
    | .panicked => .panicked
    | .ok configSummary =>
      match createJobStatus j with
      | .error e => .error e
      | .panicked => .panicked
      | .ok statusSummary =>
        .ok (Component.text (configSummary.title ++ "/" ++ statusSummary.title))

/-- `createJobConditions` of job.go: one row per condition, in input
order.  Condition fields are (type, lastProbe, lastTransition, status,
message, reason). -/
structure JobCondition where
  condType : String
  lastProbeTime : Int
  lastTransitionTime : Int
  status : String
  message : String
  reason : String
deriving DecidableEq, Repr

/-- The loop body of `createJobConditions`. -/
def jobConditionRow (condition : JobCondition) : TableRow :=
  [("Type", Component.text condition.condType),
   ("Last Probe", Component.timestamp condition.lastProbeTime),
   ("Last Transition", Component.timestamp condition.lastTransitionTime),
   ("Status", Component.text condition.status),
   ("Message", Component.text condition.message),
   ("Reason", Component.text condition.reason)]

/-- `createJobConditions` of job.go. -/
def createJobConditions (conditions : List JobCondition) : GoResult Table :=
  let cols := ["Type", "Last Probe", "Last Transition", "Status", "Message", "Reason"]
  let table := Table.new "Conditions" "There are no job conditions!" cols
  .ok { table with rows := conditions.map jobConditionRow }

/-- The generic accessor view of the `runtime.Object` handed to
`createJobListView` (`meta.NewAccessor`): its namespace, apiVersion,
kind and name.  On the typed objects this excerpt passes, the four
accessor calls succeed. -/
structure ObjectRef where
  nspace : String
  apiVersion : String
  kind : String
  name : String
deriving DecidableEq, Repr

/-- The matching owner references of one listed job against the input
object: apiVersion, kind and name must all be equal. -/
def matchingOwnerRefs (object : ObjectRef) (job : Job) : List OwnerReference :=
  job.ownerReferences.filter fun ref =>
    ref.apiVersion == object.apiVersion &&
    ref.kind == object.kind &&
    ref.name == object.name

/-- The filtering loop of `createJobListView`: each listed job is
appended to the result once per owner reference that matches the input
object. -/
def jobListFilter (object : ObjectRef) : List Job → List Job
  | [] => []
  | job :: rest =>
    (matchingOwnerRefs object job).map (fun _ => job) ++ jobListFilter object rest

/-- Rendering of a `store.Key` by the `%+v` verb of `errors.Wrapf`
(modelled: the exact `fmt` struct layout is external library
behaviour; only the key fields matter). -/
def storeKeyString (key : StoreKey) : String :=
  "\x7bNamespace:" ++ key.nspace ++ " APIVersion:" ++ key.apiVersion ++
    " Kind:" ++ key.kind ++ "\x7d"

/-- `createJobListView` of job.go: disable labels, list objects from
the store under the fixed key (object namespace, apiVersion
"batch/v1beta1", kind "Job"), keep jobs owned by the input object —
once per matching owner reference — and hand them to `JobListHandler`.
The store returns unstructured items; their conversion to typed jobs
(`FromUnstructured` plus `copyObjectMeta`) is external library
machinery modelled inside `Options.storeList`. -/
def createJobListView (object : ObjectRef) (options : Options) : GoResult Table :=
  let options := { options with disableLabels := true }
  let key : StoreKey := ⟨object.nspace, "batch/v1beta1", "Job"⟩
  match options.storeList key with
  | .error e =>
    .error (.wrap ("list all objects for key " ++ storeKeyString key) e)
  | .ok items =>
    JobListHandler (some ⟨jobListFilter object items⟩) options

/-- `secretTableCols` of secret.go. -/
def secretTableCols : List String := ["Name", "Labels", "Type", "Data", "Age"]

/-- `secretDataCols` of secret.go. -/
def secretDataCols : List String := ["Key"]

/-- The row `SecretListHandler` builds for one secret, once the name
link has been resolved.  The Data cell is only the number of keys of
the `Data` map. -/
def secretRowWith (nameLink : Component) (secret : Secret) : TableRow :=
  [("Name", nameLink),
   ("Labels", Component.labels secret.labels),
   ("Type", Component.text secret.secretType),
   ("Data", Component.text (sprintfD secret.data.length)),
   ("Age", Component.timestamp secret.creationTimestamp)]

/-- The loop of `SecretListHandler` over `list.Items`. -/
def secretListLoop (opts : Options) : List Secret → Table → GoResult Table
  | [], table => .ok table
  | secret :: rest, table =>
    match opts.linkForSecret secret secret.name with
    | .error e => .error e
    | .ok nameLink => secretListLoop opts rest (table.add (secretRowWith nameLink secret))

/-- `SecretListHandler` of secret.go. -/
def SecretListHandler (list : Option SecretList) (opts : Options) : GoResult Table :=
  match list with
  | none => .error (.new "list of secrets is nil")
  | some l =>
    secretListLoop opts l.items
      (Table.new "Secrets" "We couldn\x27t find any secrets!" secretTableCols)

/-- `secretConfiguration` of secret.go: a single Type section. -/
def secretConfiguration (secret : Secret) : GoResult Summary :=
  let sections : List SummarySection :=
    [⟨"Type", Component.text secret.secretType⟩]
  .ok ⟨"Configuration", sections⟩

/-- `secretData` of secret.go.  The source iterates the keys of the Go
map `secret.Data` with `range`; Go map iteration order is unspecified
(randomised per invocation), so the iteration is modelled by an extra
argument `ord`, an enumeration of the key set.  A row holds only the
key — never the value bytes. -/
def secretData (_secret : Secret) (ord : List String) : Table :=
  let table := Table.new "Data" "This secret has no data!" secretDataCols
  { table with rows := ord.map fun key => [("Key", Component.text key)] }

/-- `ord` is a possible Go map iteration order for the map `m`: a
permutation of its key set. -/
def isKeyEnumeration (m : List (String × List Nat)) (ord : List String) : Prop :=
  ord.Perm (m.map Prod.fst)

instance (m : List (String × List Nat)) (ord : List String) :
    Decidable (isKeyEnumeration m ord) :=
  inferInstanceAs (Decidable (ord.Perm (m.map Prod.fst)))

/-- `SecretHandler` of secret.go: nil secret is an error; otherwise the
configuration summary is registered and (modelled from the spec:
`NewObject`/`ToComponent` assemble the registered parts, `secretData`
being deferred into an item function) assembly succeeds with an opaque
marker component carrying the summary title. -/
def SecretHandler (secret : Option Secret) (_opts : Options) : GoResult Component :=
  match secret with
  | none => .error (.new "secret is nil")
  | some s =>
    match secretConfiguration s with
    | .error e => .error e
    | .panicked => .panicked
    | .ok configSummary => .ok (Component.text configSummary.title)

/-- Modelled from the spec: `printSelectorMap` (shared helper, not part
of this excerpt) formats a selector map as a Selectors component, one
label selector per map entry. -/
def printSelectorMap (selector : List (String × String)) : Component :=
  Component.selectors selector

/-- The row `ReplicationControllerListHandler` builds for one
replication controller whose pod template is non-nil, once the name
link has been resolved. -/
def rcRowWith (nameLink : Component) (tmpl : PodTemplate)
    (rc : ReplicationController) : TableRow :=
  [("Name", nameLink),
   ("Labels", Component.labels rc.labels),
   ("Status", Component.text (sprintfD rc.availableReplicas ++ "/" ++ sprintfD rc.statusReplicas)),
   ("Age", Component.timestamp rc.creationTimestamp),
   ("Containers", Component.containers tmpl.containers),
   ("Selector", printSelectorMap rc.selector)]

/-- The loop of `ReplicationControllerListHandler` over `list.Items`.
The source reads `rc.Spec.Template.Spec.Containers`; `Spec.Template`
is a pointer, so a nil template is a nil-pointer dereference, i.e. a
panic. -/
def rcListLoop (opts : Options) : List ReplicationController → Table → GoResult Table
  | [], table => .ok table
  | rc :: rest, table =>
    match opts.linkForRC rc rc.name with
    | .error e => .error e
    | .ok nameLink =>
      match rc.template with
      | none => .panicked
      | some tmpl => rcListLoop opts rest (table.add (rcRowWith nameLink tmpl rc))

/-- `ReplicationControllerListHandler`. -/
def ReplicationControllerListHandler (list : Option ReplicationControllerList)
    (opts : Options) : GoResult Table :=
  match list with
  | none => .error (.new "nil list")
  | some l =>
    let cols := ["Name", "Labels", "Status", "Age", "Containers", "Selector"]
    rcListLoop opts l.items
      (Table.new "ReplicationControllers"
        "We couldn\x27t find any replication controllers!" cols)

/-- `metav1.GetControllerOf` (external library): the first owner
reference whose Controller flag is set and true. -/
def getControllerOf (rc : ReplicationController) : Option OwnerReference :=
  rc.ownerReferences.find? fun ref => ref.controller == some true

/-- `ReplicationControllerConfiguration.Create`: nil receiver or nil
controller is an error; a Controlled By section when a controller
reference exists (its link resolution may fail), a Replica Status
section when `Spec.Replicas` is non-nil, then always Replicas. -/
def rcConfigurationCreate (rcc : Option ReplicationController)
    (options : Options) : GoResult Summary :=
  match rcc with
  | none => .error (.new "replicationcontroller is nil")
  | some replicationController =>
    let sections : List SummarySection := []
    let controlled : GoResult (List SummarySection) :=
      match getControllerOf replicationController with
      | some controllerRef =>
        match options.linkForOwner replicationController controllerRef with
        | .error e => .error e
        | .ok controlledBy =>
          .ok (sections ++ [⟨"Controlled By", controlledBy⟩])
      | none => .ok sections
    match controlled with
    | .error e => .error e
    | .panicked => .panicked
    | .ok sections =>
      let current := sprintfD replicationController.readyReplicas
      let sections :=
        match replicationController.specReplicas with
        | some desired =>
          let desiredReplicas := sprintfD desired
          let status := "Current " ++ current ++ " / Desired " ++ desiredReplicas
          sectionsAdd sections "Replica Status" (Component.text status)
        | none => sections
      let replicas := sprintfD replicationController.statusReplicas
      let sections := sectionsAdd sections "Replicas" (Component.text replicas)
      .ok ⟨"Configuration", sections⟩

/-- `ReplicationControllerHandler`.  It has no nil check of its own:
`NewObject(rc)` (outside this excerpt; modelled from the spec: the
builder stores the object without dereferencing it) is followed by
`rcConfigGen.Create(options)`, whose own nil check turns a nil
controller into an error before `EnablePodTemplate(*rc.Spec.Template)`
would dereference it.  On a non-nil controller the deferred items are
registered and `EnablePodTemplate` dereferences the template pointer —
a panic when the template is nil — after which (modelled from the
spec) assembly succeeds with an opaque marker component. -/
def ReplicationControllerHandler (rc : Option ReplicationController)
    (options : Options) : GoResult Component :=
  match rcConfigurationCreate rc options with
  | .error e => .error e
  | .panicked => .panicked
  | .ok configSummary =>
    match rc with
    | none => .panicked
    | some r =>
      match r.template with
      | none => .panicked
      | some _ => .ok (Component.text configSummary.title)

/-! Concrete sample objects and options used by the witnesses and
counterexamples below. -/

/-- A sample owner reference with the Controller flag set. -/
def exOwnerRef : OwnerReference := ⟨"apps/v1", "CronJob", "parent", some true⟩

/-- A sample job, all optional fields set, owned by `exOwnerRef`. -/
def exJob : Job :=
  ⟨"job1", "default", [("app", "demo")], 5, some 2, some 6, some 1, 3, some 4, none,
    [exOwnerRef]⟩

/-- A second sample job with every optional field nil. -/
def exJob2 : Job := ⟨"job2", "default", [], 7, none, none, none, 0, none, some 9, []⟩

/-- A job whose name the failing link resolver of `exMixedOptions`
rejects. -/
def exBadJob : Job := ⟨"bad", "default", [], 1, none, none, none, 0, none, none, []⟩

/-- A sample secret with a two-key Data map. -/
def exSecret : Secret :=
  ⟨"secret1", [("tier", "web")], "Opaque", [("user", [117]), ("pass", [112])], 11⟩

/-- The same secret with different byte values under the same keys. -/
def exSecretAltValues : Secret :=
  ⟨"secret1", [("tier", "web")], "Opaque", [("user", [1]), ("pass", [2, 3])], 11⟩

/-- A sample pod template. -/
def exTemplate : PodTemplate := ⟨[("nginx", "nginx:1.15")]⟩

/-- A sample replication controller with a controller owner reference,
a desired replica count and a pod template. -/
def exRC : ReplicationController :=
  ⟨"rc1", "default", [("foo", "bar")], 13, [exOwnerRef], some 3,
    [("app", "myapp")], some exTemplate, 3, 0, 2⟩

/-- A replication controller whose `Spec.Template` pointer is nil. -/
def exRCNilTemplate : ReplicationController :=
  ⟨"rc2", "default", [], 17, [], none, [], none, 1, 1, 1⟩

/-- The accessor view of a sample owner object; `exJob` carries a
matching owner reference. -/
def exObjRef : ObjectRef := ⟨"default", "apps/v1", "CronJob", "parent"⟩

/-- Options whose injected link resolver always succeeds and whose
store always returns `[exJob]`. -/
def exOptions : Options where
  disableLabels := false
  linkForJob := fun job _ => Except.ok (Component.link "" job.name ("/" ++ job.name))
  linkForSecret := fun secret _ => Except.ok (Component.link "" secret.name ("/" ++ secret.name))
  linkForRC := fun rc _ => Except.ok (Component.link "" rc.name ("/" ++ rc.name))
  linkForOwner := fun _ ref => Except.ok (Component.link "" ref.name ("/" ++ ref.name))
  storeList := fun _ => Except.ok [exJob]

/-- Options whose injected link resolver and store always fail. -/
def exFailOptions : Options where
  disableLabels := false
  linkForJob := fun _ _ => Except.error (.new "link failed")
  linkForSecret := fun _ _ => Except.error (.new "link failed")
  linkForRC := fun _ _ => Except.error (.new "link failed")
  linkForOwner := fun _ _ => Except.error (.new "owner link failed")
  storeList := fun _ => Except.error (.new "store failed")

/-- Options whose link resolver fails exactly on objects named "bad"
and whose store always fails. -/
def exMixedOptions : Options where
  disableLabels := false
  linkForJob := fun job _ =>
    if job.name = "bad" then Except.error (.new "boom")
    else Except.ok (Component.text job.name)
  linkForSecret := fun secret _ =>
    if secret.name = "bad" then Except.error (.new "boom")
    else Except.ok (Component.text secret.name)
  linkForRC := fun rc _ =>
    if rc.name = "bad" then Except.error (.new "boom")
    else Except.ok (Component.text rc.name)
  linkForOwner := fun _ ref => Except.ok (Component.text ref.name)
  storeList := fun _ => Except.error (.new "boom")

/-- A secret named "bad", rejected by `exMixedOptions`. -/
def exBadSecret : Secret := ⟨"bad", [], "Opaque", [], 1⟩

/-- A store function that answers every key with `[exJob]`. -/
def exStoreA : StoreKey → Except GoErr (List Job) := fun _ => Except.ok [exJob]

/-- A store function that answers Job keys with `[exJob]` and fails on
every other kind; it agrees with `exStoreA` on the job-list key. -/
def exStoreB : StoreKey → Except GoErr (List Job) := fun key =>
  if key.kind = "Job" then Except.ok [exJob] else Except.error (.new "other kind")

/-! Helper lemmas about the table-building loops. -/

/-- When every link resolution succeeds with value `lc j`, the job loop
appends exactly one row per item, in input order. -/
theorem jobListLoop_ok (opts : Options) (lc : Job → Component)
    (items : List Job) :
    ∀ t : Table,
      (∀ j ∈ items, opts.linkForJob j j.name = Except.ok (lc j)) →
      jobListLoop opts items t =
        .ok { t with rows := t.rows ++ items.map fun j => jobRowWith (lc j) j } := by
  induction items with
  | nil => intro t _; simp [jobListLoop]
  | cons job rest ih =>
    intro t h
    have hj := h job (by simp)
    have hrest := ih (t.add (jobRowWith (lc job) job))
      (fun j hmem => h j (List.mem_cons_of_mem _ hmem))
    simp [Table.add] at hrest
    simp [jobListLoop, hj, hrest, Table.add]

/-- When the link resolution of `bad` fails with `e` after a prefix of
successes, the job loop stops with exactly that error. -/
theorem jobListLoop_error (opts : Options) (lc : Job → Component)
    (e : GoErr) (bad : Job) (rest : List Job)
    (hbad : opts.linkForJob bad bad.name = Except.error e) :
    ∀ (pre : List Job) (t : Table),
      (∀ j ∈ pre, opts.linkForJob j j.name = Except.ok (lc j)) →
      jobListLoop opts (pre ++ bad :: rest) t = .error e := by
  intro pre
  induction pre with
  | nil => intro t _; simp [jobListLoop, hbad]
  | cons job front ih =>
    intro t h
    have hj := h job (by simp)
    have hfront := ih (t.add (jobRowWith (lc job) job))
      (fun j hmem => h j (List.mem_cons_of_mem _ hmem))
    simp [jobListLoop, hj, hfront]

/-- Secret-loop analogue of `jobListLoop_ok`. -/
theorem secretListLoop_ok (opts : Options) (lc : Secret → Component)
    (items : List Secret) :
    ∀ t : Table,
      (∀ s ∈ items, opts.linkForSecret s s.name = Except.ok (lc s)) →
      secretListLoop opts items t =
        .ok { t with rows := t.rows ++ items.map fun s => secretRowWith (lc s) s } := by
  induction items with
  | nil => intro t _; simp [secretListLoop]
  | cons secret rest ih =>
    intro t h
    have hs := h secret (by simp)
    have hrest := ih (t.add (secretRowWith (lc secret) secret))
      (fun s hmem => h s (List.mem_cons_of_mem _ hmem))
    simp [Table.add] at hrest
    simp [secretListLoop, hs, hrest, Table.add]

/-- Secret-loop analogue of `jobListLoop_error`. -/
theorem secretListLoop_error (opts : Options) (lc : Secret → Component)
    (e : GoErr) (bad : Secret) (rest : List Secret)
    (hbad : opts.linkForSecret bad bad.name = Except.error e) :
    ∀ (pre : List Secret) (t : Table),
      (∀ s ∈ pre, opts.linkForSecret s s.name = Except.ok (lc s)) →
      secretListLoop opts (pre ++ bad :: rest) t = .error e := by
  intro pre
  induction pre with
  | nil => intro t _; simp [secretListLoop, hbad]
  | cons secret front ih =>
    intro t h
    have hs := h secret (by simp)
    have hfront := ih (t.add (secretRowWith (lc secret) secret))
      (fun s hmem => h s (List.mem_cons_of_mem _ hmem))
    simp [secretListLoop, hs, hfront]

/-- Replication-controller-loop analogue of `jobListLoop_ok`: every
link succeeds and every template pointer is non-nil. -/
theorem rcListLoop_ok (opts : Options) (lc : ReplicationController → Component)
    (tf : ReplicationController → PodTemplate)
    (items : List ReplicationController) :
    ∀ t : Table,
      (∀ r ∈ items, opts.linkForRC r r.name = Except.ok (lc r)) →
      (∀ r ∈ items, r.template = some (tf r)) →
      rcListLoop opts items t =
        .ok { t with rows := t.rows ++ items.map fun r => rcRowWith (lc r) (tf r) r } := by
  induction items with
  | nil => intro t _ _; simp [rcListLoop]
  | cons rc rest ih =>
    intro t h htmpl
    have hr := h rc (by simp)
    have ht := htmpl rc (by simp)
    have hrest := ih (t.add (rcRowWith (lc rc) (tf rc) rc))
      (fun r hmem => h r (List.mem_cons_of_mem _ hmem))
      (fun r hmem => htmpl r (List.mem_cons_of_mem _ hmem))
    simp [Table.add] at hrest
    simp [rcListLoop, hr, ht, hrest, Table.add]

/-- The job loop reads `Options` only through the link resolver. -/
theorem jobListLoop_link_congr (opts1 opts2 : Options)
    (h : opts1.linkForJob = opts2.linkForJob) :
    ∀ (items : List Job) (t : Table),
      jobListLoop opts1 items t = jobListLoop opts2 items t := by
  intro items
  induction items with
  | nil => intro t; rfl
  | cons job rest ih =>
    intro t
    simp only [jobListLoop, h]
    cases opts2.linkForJob job job.name with
    | error e => rfl
    | ok c => exact ih _

/-- Characterisation of `ReplicationControllerConfiguration.Create` on
a non-nil controller whose owner links all resolve. -/
theorem rcConfigurationCreate_ok (rc : ReplicationController) (opts : Options)
    (lo : OwnerReference → Component)
    (hO : ∀ ref, opts.linkForOwner rc ref = Except.ok (lo ref)) :
    rcConfigurationCreate (some rc) opts =
      .ok ⟨"Configuration",
        (match getControllerOf rc with
         | some controllerRef => [⟨"Controlled By", lo controllerRef⟩]
         | none => []) ++
        (match rc.specReplicas with
         | some desired =>
           [⟨"Replica Status",
             Component.text ("Current " ++ sprintfD rc.readyReplicas ++
               " / Desired " ++ sprintfD desired)⟩]
         | none => []) ++
        [⟨"Replicas", Component.text (sprintfD rc.statusReplicas)⟩]⟩ := by
  cases hc : getControllerOf rc with
  | some controllerRef =>
    cases hr : rc.specReplicas <;>
      simp [rcConfigurationCreate, hc, hr, hO controllerRef, sectionsAdd]
  | none =>
    cases hr : rc.specReplicas <;>
      simp [rcConfigurationCreate, hc, hr, sectionsAdd]

/-- C1: printing a nil object or nil list.  The four handlers with an
explicit nil check return a descriptive error, but `JobHandler` has no
nil check — its first act dereferences the nil job pointer
(`createJobConfiguration(*job)`), which is a runtime panic, not an
error return.  This theorem evaluates every handler at the nil input:
the divergence of `JobHandler` from the stated uniform policy is the
first conjunct. -/
theorem c1_nil_input_behavior :
    JobHandler none exOptions = .panicked ∧
    JobListHandler none exOptions = .error (.new "job list is nil") ∧
    SecretHandler none exOptions = .error (.new "secret is nil") ∧
    SecretListHandler none exOptions = .error (.new "list of secrets is nil") ∧
    ReplicationControllerListHandler none exOptions = .error (.new "nil list") ∧
    ReplicationControllerHandler none exOptions =
      .error (.new "replicationcontroller is nil") :=
  ⟨rfl, rfl, rfl, rfl, rfl, rfl⟩

/-- C2 counterexample: a non-nil one-item replication controller list
on which the only `Link.ForObject` call succeeds, yet no one-row table
is returned — the handler dereferences the nil `Spec.Template` pointer
of the item and panics. -/
theorem c2_counterexample_nil_template :
    (exOptions.linkForRC exRCNilTemplate exRCNilTemplate.name =
      Except.ok (Component.link "" "rc2" "/rc2")) ∧
    ReplicationControllerListHandler (some ⟨[exRCNilTemplate]⟩) exOptions =
      .panicked :=
  ⟨rfl, rfl⟩

/-- C2 amended: for every non-nil input list on which every
`Link.ForObject` call succeeds — and, for the replication controller
handler, in which every item additionally has a non-nil pod template —
the returned table has exactly one row per item, the i-th row built
from the i-th item, in input order. -/
theorem c2_rows_in_input_order
    (opts : Options) (jl : JobList) (sl : SecretList)
    (rl : ReplicationControllerList)
    (lcJ : Job → Component) (lcS : Secret → Component)
    (lcR : ReplicationController → Component)
    (tf : ReplicationController → PodTemplate)
    (hJ : ∀ j ∈ jl.items, opts.linkForJob j j.name = Except.ok (lcJ j))
    (hS : ∀ s ∈ sl.items, opts.linkForSecret s s.name = Except.ok (lcS s))
    (hR : ∀ r ∈ rl.items, opts.linkForRC r r.name = Except.ok (lcR r))
    (hT : ∀ r ∈ rl.items, r.template = some (tf r)) :
    JobListHandler (some jl) opts =
      .ok ⟨"Jobs", "We couldn\x27t find any jobs!", JobCols,
        jl.items.map fun j => jobRowWith (lcJ j) j⟩ ∧
    SecretListHandler (some sl) opts =
      .ok ⟨"Secrets", "We couldn\x27t find any secrets!", secretTableCols,
        sl.items.map fun s => secretRowWith (lcS s) s⟩ ∧
    ReplicationControllerListHandler (some rl) opts =
      .ok ⟨"ReplicationControllers",
        "We couldn\x27t find any replication controllers!",
        ["Name", "Labels", "Status", "Age", "Containers", "Selector"],
        rl.items.map fun r => rcRowWith (lcR r) (tf r) r⟩ := by
  refine ⟨?_, ?_, ?_⟩
  · have h := jobListLoop_ok opts lcJ jl.items
      (Table.new "Jobs" "We couldn\x27t find any jobs!" JobCols) hJ
    simpa [JobListHandler, Table.new] using h
  · have h := secretListLoop_ok opts lcS sl.items
      (Table.new "Secrets" "We couldn\x27t find any secrets!" secretTableCols) hS
    simpa [SecretListHandler, Table.new] using h
  · have h := rcListLoop_ok opts lcR tf rl.items
      (Table.new "ReplicationControllers"
        "We couldn\x27t find any replication controllers!"
        ["Name", "Labels", "Status", "Age", "Containers", "Selector"]) hR hT
    simpa [ReplicationControllerListHandler, Table.new] using h

/-- C2 witness: the amended row theorem applied to concrete two-job,
one-secret and one-controller lists under the always-resolving link
options. -/
theorem c2_rows_in_input_order_witness :
    JobListHandler (some ⟨[exJob, exJob2]⟩) exOptions =
      .ok ⟨"Jobs", "We couldn\x27t find any jobs!", JobCols,
        [exJob, exJob2].map fun j =>
          jobRowWith (Component.link "" j.name ("/" ++ j.name)) j⟩ ∧
    SecretListHandler (some ⟨[exSecret]⟩) exOptions =
      .ok ⟨"Secrets", "We couldn\x27t find any secrets!", secretTableCols,
        [exSecret].map fun s =>
          secretRowWith (Component.link "" s.name ("/" ++ s.name)) s⟩ ∧
    ReplicationControllerListHandler (some ⟨[exRC]⟩) exOptions =
      .ok ⟨"ReplicationControllers",
        "We couldn\x27t find any replication controllers!",
        ["Name", "Labels", "Status", "Age", "Containers", "Selector"],
        [exRC].map fun r =>
          rcRowWith (Component.link "" r.name ("/" ++ r.name)) exTemplate r⟩ :=
  c2_rows_in_input_order exOptions ⟨[exJob, exJob2]⟩ ⟨[exSecret]⟩ ⟨[exRC]⟩
    (fun j => Component.link "" j.name ("/" ++ j.name))
    (fun s => Component.link "" s.name ("/" ++ s.name))
    (fun r => Component.link "" r.name ("/" ++ r.name))
    (fun _ => exTemplate)
    (fun _ _ => rfl) (fun _ _ => rfl) (fun _ _ => rfl) (by decide)

/-- C3 counterexample: `secretData` iterates the keys of the Go map
`secret.Data` with `range`, whose order is unspecified and randomised
per invocation.  Both listed orders are valid enumerations of the same
two-key map, yet they produce different tables, so identical input
does not guarantee byte-identical output across invocations. -/
theorem c3_counterexample_iteration_order :
    isKeyEnumeration exSecret.data ["user", "pass"] ∧
    isKeyEnumeration exSecret.data ["pass", "user"] ∧
    secretData exSecret ["user", "pass"] ≠ secretData exSecret ["pass", "user"] :=
  ⟨by decide, by decide, by decide⟩

/-- C3 amended: every printer is a deterministic function of its input
together with the map iteration order; for `secretData`, any two valid
iteration orders of the same Secret yield tables that agree on title,
placeholder and columns and whose rows are permutations of one
another, and equal orders yield identical tables. -/
theorem c3_deterministic_up_to_row_order
    (s : Secret) (ord1 ord2 : List String)
    (h1 : isKeyEnumeration s.data ord1) (h2 : isKeyEnumeration s.data ord2) :
    (secretData s ord1).title = (secretData s ord2).title ∧
    (secretData s ord1).placeholder = (secretData s ord2).placeholder ∧
    (secretData s ord1).cols = (secretData s ord2).cols ∧
    (secretData s ord1).rows.Perm (secretData s ord2).rows ∧
    (ord1 = ord2 → secretData s ord1 = secretData s ord2) := by
  refine ⟨rfl, rfl, rfl, ?_, fun h => by rw [h]⟩
  have hperm : ord1.Perm ord2 := h1.trans h2.symm
  simpa [secretData] using hperm.map fun key => [("Key", Component.text key)]

/-- C3 witness: the up-to-row-order determinism applied to the
two-key sample secret under its two enumeration orders. -/
theorem c3_deterministic_up_to_row_order_witness :
    (secretData exSecret ["user", "pass"]).title =
      (secretData exSecret ["pass", "user"]).title ∧
    (secretData exSecret ["user", "pass"]).placeholder =
      (secretData exSecret ["pass", "user"]).placeholder ∧
    (secretData exSecret ["user", "pass"]).cols =
      (secretData exSecret ["pass", "user"]).cols ∧
    (secretData exSecret ["user", "pass"]).rows.Perm
      (secretData exSecret ["pass", "user"]).rows ∧
    (["user", "pass"] = ["pass", "user"] →
      secretData exSecret ["user", "pass"] = secretData exSecret ["pass", "user"]) :=
  c3_deterministic_up_to_row_order exSecret ["user", "pass"] ["pass", "user"]
    (by decide) (by decide)

/-- C4 counterexample: a non-nil one-job list under a link resolver
that fails, and a non-nil replication controller whose owner link
fails: both printers return an error although no required input is
nil, so nil input is not the only error condition. -/
theorem c4_counterexample_link_failure :
    JobListHandler (some ⟨[exJob]⟩) exFailOptions = .error (.new "link failed") ∧
    rcConfigurationCreate (some exRC) exFailOptions =
      .error (.new "owner link failed") :=
  ⟨rfl, rfl⟩

/-- C4 amended: a printer returns an error only when a required input
is nil or a downstream link call fails; with a non-nil input on which
every link call succeeds, `JobListHandler` and
`ReplicationControllerConfiguration.Create` return no error. -/
theorem c4_only_nil_or_link_errors
    (opts : Options) (jl : JobList) (lcJ : Job → Component)
    (rc : ReplicationController) (lo : OwnerReference → Component)
    (hJ : ∀ j ∈ jl.items, opts.linkForJob j j.name = Except.ok (lcJ j))
    (hO : ∀ ref, opts.linkForOwner rc ref = Except.ok (lo ref)) :
    (∃ t, JobListHandler (some jl) opts = .ok t) ∧
    (∃ s, rcConfigurationCreate (some rc) opts = .ok s) := by
  constructor
  · have h := jobListLoop_ok opts lcJ jl.items
      (Table.new "Jobs" "We couldn\x27t find any jobs!" JobCols) hJ
    exact ⟨_, h⟩
  · exact ⟨_, rcConfigurationCreate_ok rc opts lo hO⟩

/-- C4 witness: the amended no-error theorem at a concrete one-job
list and the sample replication controller under the always-resolving
link options. -/
theorem c4_only_nil_or_link_errors_witness :
    (∃ t, JobListHandler (some ⟨[exJob]⟩) exOptions = .ok t) ∧
    (∃ s, rcConfigurationCreate (some exRC) exOptions = .ok s) :=
  c4_only_nil_or_link_errors exOptions ⟨[exJob]⟩
    (fun j => Component.link "" j.name ("/" ++ j.name)) exRC
    (fun ref => Component.link "" ref.name ("/" ++ ref.name))
    (fun _ _ => rfl) (fun _ => rfl)

/-- C5: when a link resolution fails partway through a list handler,
the handler returns the failing error itself (no component, hence no
partial table with the rows built so far); when the object store list
fails inside `createJobListView`, the wrapped store error is returned
and no table is produced. -/
theorem c5_failure_propagation
    (opts : Options) (e : GoErr)
    (preJ : List Job) (badJ : Job) (restJ : List Job) (lcJ : Job → Component)
    (preS : List Secret) (badS : Secret) (restS : List Secret)
    (lcS : Secret → Component) (obj : ObjectRef)
    (hpreJ : ∀ j ∈ preJ, opts.linkForJob j j.name = Except.ok (lcJ j))
    (hbadJ : opts.linkForJob badJ badJ.name = Except.error e)
    (hpreS : ∀ s ∈ preS, opts.linkForSecret s s.name = Except.ok (lcS s))
    (hbadS : opts.linkForSecret badS badS.name = Except.error e)
    (hstore : opts.storeList ⟨obj.nspace, "batch/v1beta1", "Job"⟩ =
      Except.error e) :
    JobListHandler (some ⟨preJ ++ badJ :: restJ⟩) opts = .error e ∧
    SecretListHandler (some ⟨preS ++ badS :: restS⟩) opts = .error e ∧
    createJobListView obj opts =
      .error (.wrap ("list all objects for key " ++
        storeKeyString ⟨obj.nspace, "batch/v1beta1", "Job"⟩) e) := by
  refine ⟨?_, ?_, ?_⟩
  · exact jobListLoop_error opts lcJ e badJ restJ hbadJ preJ _ hpreJ
  · exact secretListLoop_error opts lcS e badS restS hbadS preS _ hpreS
  · unfold createJobListView
    dsimp only
    rw [hstore]

/-- C5 witness: failure propagation at a concrete job list (good job
then bad job), a concrete secret list (good secret then bad secret)
and a concrete store failure, under the mixed options whose resolver
rejects objects named "bad" and whose store always fails. -/
theorem c5_failure_propagation_witness :
    JobListHandler (some ⟨[exJob] ++ exBadJob :: []⟩) exMixedOptions =
      .error (.new "boom") ∧
    SecretListHandler (some ⟨[exSecret] ++ exBadSecret :: []⟩) exMixedOptions =
      .error (.new "boom") ∧
    createJobListView exObjRef exMixedOptions =
      .error (.wrap ("list all objects for key " ++
        storeKeyString ⟨"default", "batch/v1beta1", "Job"⟩) (.new "boom")) :=
  c5_failure_propagation exMixedOptions (.new "boom")
    [exJob] exBadJob [] (fun j => Component.text j.name)
    [exSecret] exBadSecret [] (fun s => Component.text s.name)
    exObjRef
    (fun j hj => by simp at hj; subst hj; rfl) rfl
    (fun s hs => by simp at hs; subst hs; rfl) rfl rfl

/-- C6: summary sections appear exactly in authored order:
`createJobConfiguration` always yields Back Off Limit, Completions,
Parallelism, and `ReplicationControllerConfiguration.Create` yields
Controlled By (when a controller reference exists), then Replica
Status (when `Spec.Replicas` is non-nil), then Replicas. -/
theorem c6_summary_section_order
    (job : Job) (rc : ReplicationController) (opts : Options)
    (lo : OwnerReference → Component)
    (hO : ∀ ref, opts.linkForOwner rc ref = Except.ok (lo ref)) :
    (∃ s, createJobConfiguration job = .ok s ∧
      s.sections.map SummarySection.header =
        ["Back Off Limit", "Completions", "Parallelism"]) ∧
    (∃ s, rcConfigurationCreate (some rc) opts = .ok s ∧
      s.sections.map SummarySection.header =
        (match getControllerOf rc with
         | some _ => ["Controlled By"]
         | none => []) ++
        (match rc.specReplicas with
         | some _ => ["Replica Status"]
         | none => []) ++
        ["Replicas"]) := by
  constructor
  · exact ⟨_, rfl, rfl⟩
  · refine ⟨_, rcConfigurationCreate_ok rc opts lo hO, ?_⟩
    cases getControllerOf rc <;> cases rc.specReplicas <;> simp

/-- C6 witness: the section-order theorem at the sample job (all
optional fields nil) and the sample replication controller (controller
reference and desired replica count both present). -/
theorem c6_summary_section_order_witness :
    (∃ s, createJobConfiguration exJob2 = .ok s ∧
      s.sections.map SummarySection.header =
        ["Back Off Limit", "Completions", "Parallelism"]) ∧
    (∃ s, rcConfigurationCreate (some exRC) exOptions = .ok s ∧
      s.sections.map SummarySection.header =
        ["Controlled By", "Replica Status", "Replicas"]) :=
  c6_summary_section_order exJob2 exRC exOptions
    (fun ref => Component.link "" ref.name ("/" ++ ref.name)) (fun _ => rfl)

/-- C8: `createJobStatus` never returns an error; its summary has a
Started section exactly when `Status.StartTime` is non-nil, a
Completed section exactly when `Status.CompletionTime` is non-nil, and
always a Succeeded section whose text is the decimal rendering of
`Status.Succeeded`. -/
theorem c8_job_status_sections (job : Job) :
    ∃ s, createJobStatus job = .ok s ∧
      ((∃ sec ∈ s.sections, sec.header = "Started") ↔ job.startTime.isSome) ∧
      ((∃ sec ∈ s.sections, sec.header = "Completed") ↔ job.completionTime.isSome) ∧
      (⟨"Succeeded", Component.text (sprintfD job.succeeded)⟩ : SummarySection) ∈
        s.sections := by
  refine ⟨_, rfl, ?_, ?_, ?_⟩ <;>
    cases h1 : job.startTime <;> cases h2 : job.completionTime <;>
      simp [createJobStatus, sectionsAdd, h1, h2]

/-- C9: secret byte values never reach the output.  Two secrets that
agree on everything but the byte values stored under their Data keys
admit the same set of map iteration orders and produce identical
`secretData` tables for each such order; a Data-table row holds only
the key text; the list-handler row for a secret is likewise
value-independent, and its Data cell is only the decimal count of the
Data keys; the secret list table consists of exactly these rows. -/
theorem c9_secret_values_not_printed
    (s1 s2 : Secret) (ord : List String) (nameLink : Component)
    (sl : SecretList) (opts : Options) (lc : Secret → Component)
    (hkeys : s1.data.map Prod.fst = s2.data.map Prod.fst)
    (_hname : s1.name = s2.name) (hlabels : s1.labels = s2.labels)
    (htype : s1.secretType = s2.secretType)
    (hts : s1.creationTimestamp = s2.creationTimestamp)
    (hlink : ∀ s ∈ sl.items, opts.linkForSecret s s.name = Except.ok (lc s)) :
    (∀ ord2, isKeyEnumeration s1.data ord2 ↔ isKeyEnumeration s2.data ord2) ∧
    secretData s1 ord = secretData s2 ord ∧
    (secretData s1 ord).rows = (ord.map fun key => [("Key", Component.text key)]) ∧
    secretRowWith nameLink s1 = secretRowWith nameLink s2 ∧
    ("Data", Component.text (sprintfD s1.data.length)) ∈ secretRowWith nameLink s1 ∧
    SecretListHandler (some sl) opts =
      .ok ⟨"Secrets", "We couldn\x27t find any secrets!", secretTableCols,
        sl.items.map fun s => secretRowWith (lc s) s⟩ := by
  have hlen : s1.data.length = s2.data.length := by
    have := congrArg List.length hkeys
    simpa using this
  refine ⟨?_, rfl, rfl, ?_, ?_, ?_⟩
  · intro ord2
    unfold isKeyEnumeration
    rw [hkeys]
  · simp [secretRowWith, hlabels, htype, hts, hlen]
  · simp [secretRowWith]
  · have h := secretListLoop_ok opts lc sl.items
      (Table.new "Secrets" "We couldn\x27t find any secrets!" secretTableCols) hlink
    simpa [SecretListHandler, Table.new] using h

/-- C9 witness: the value-independence theorem at the two sample
secrets that differ only in their stored byte values, a concrete
iteration order, and a concrete one-secret list. -/
theorem c9_secret_values_not_printed_witness :
    (∀ ord2, isKeyEnumeration exSecret.data ord2 ↔
      isKeyEnumeration exSecretAltValues.data ord2) ∧
    secretData exSecret ["pass", "user"] =
      secretData exSecretAltValues ["pass", "user"] ∧
    (secretData exSecret ["pass", "user"]).rows =
      (["pass", "user"].map fun key => [("Key", Component.text key)]) ∧
    secretRowWith (Component.text "link") exSecret =
      secretRowWith (Component.text "link") exSecretAltValues ∧
    ("Data", Component.text (sprintfD exSecret.data.length)) ∈
      secretRowWith (Component.text "link") exSecret ∧
    SecretListHandler (some ⟨[exSecret]⟩) exOptions =
      .ok ⟨"Secrets", "We couldn\x27t find any secrets!", secretTableCols,
        [exSecret].map fun s =>
          secretRowWith (Component.link "" s.name ("/" ++ s.name)) s⟩ :=
  c9_secret_values_not_printed exSecret exSecretAltValues ["pass", "user"]
    (Component.text "link") ⟨[exSecret]⟩ exOptions
    (fun s => Component.link "" s.name ("/" ++ s.name))
    rfl rfl rfl rfl rfl (fun _ _ => rfl)

/-- Membership in the owner-filtered job list of `createJobListView`:
exactly the listed jobs with at least one owner reference matching the
input object. -/
theorem mem_jobListFilter (obj : ObjectRef) (items : List Job) :
    ∀ job, job ∈ jobListFilter obj items ↔
      (job ∈ items ∧ ∃ ref ∈ job.ownerReferences,
        ref.apiVersion = obj.apiVersion ∧ ref.kind = obj.kind ∧
          ref.name = obj.name) := by
  intro job
  induction items with
  | nil => simp [jobListFilter]
  | cons j rest ih =>
    simp only [jobListFilter, matchingOwnerRefs, List.mem_append, List.mem_cons, ih]
    constructor
    · rintro (hmem | ⟨hjm, hex⟩)
      · obtain ⟨ref, href, hje⟩ := List.mem_map.mp hmem
        have hje2 : j = job := hje
        subst hje2
        obtain ⟨hrmem, hp⟩ := List.mem_filter.mp href
        simp only [Bool.and_eq_true, beq_iff_eq] at hp
        exact ⟨Or.inl rfl, ref, hrmem, hp.1.1, hp.1.2, hp.2⟩
      · exact ⟨Or.inr hjm, hex⟩
    · rintro ⟨hjm | hjm, ref, hrmem, hra, hrk, hrn⟩
      · subst hjm
        refine Or.inl (List.mem_map.mpr ⟨ref, List.mem_filter.mpr ⟨hrmem, ?_⟩, rfl⟩)
        simp [hra, hrk, hrn]
      · exact Or.inr ⟨hjm, ref, hrmem, hra, hrk, hrn⟩

/-- C10: `createJobListView` queries the store with the key built from
the input object namespace and the fixed constants "batch/v1beta1" and
"Job" — two stores that agree on that one key produce the same view,
whatever they answer elsewhere, so the object apiVersion never enters
the key — and on a successful store answer it renders exactly the
listed jobs that carry a matching owner reference (same apiVersion,
kind and name as the input object), one appended copy per matching
reference. -/
theorem c10_job_list_view_key_and_filter
    (obj : ObjectRef) (opts : Options)
    (s1 s2 : StoreKey → Except GoErr (List Job)) (items : List Job)
    (hagree : s1 ⟨obj.nspace, "batch/v1beta1", "Job"⟩ =
      s2 ⟨obj.nspace, "batch/v1beta1", "Job"⟩)
    (hok : opts.storeList ⟨obj.nspace, "batch/v1beta1", "Job"⟩ =
      Except.ok items) :
    createJobListView obj { opts with storeList := s1 } =
      createJobListView obj { opts with storeList := s2 } ∧
    createJobListView obj opts =
      JobListHandler (some ⟨jobListFilter obj items⟩)
        { opts with disableLabels := true } ∧
    (∀ job, job ∈ jobListFilter obj items ↔
      (job ∈ items ∧ ∃ ref ∈ job.ownerReferences,
        ref.apiVersion = obj.apiVersion ∧ ref.kind = obj.kind ∧
          ref.name = obj.name)) := by
  refine ⟨?_, ?_, ?_⟩
  · unfold createJobListView
    dsimp only
    rw [hagree]
    cases s2 ⟨obj.nspace, "batch/v1beta1", "Job"⟩ with
    | error e => rfl
    | ok found =>
      dsimp only [JobListHandler]
      apply jobListLoop_link_congr
      rfl
  · unfold createJobListView
    dsimp only
    rw [hok]
  · exact mem_jobListFilter obj items

/-- C10 witness: the key-and-filter theorem at the sample owner object
and two concrete stores that agree on the job-list key; `exJob`
carries one matching owner reference and is rendered once. -/
theorem c10_job_list_view_key_and_filter_witness :
    createJobListView exObjRef { exOptions with storeList := exStoreA } =
      createJobListView exObjRef { exOptions with storeList := exStoreB } ∧
    createJobListView exObjRef exOptions =
      JobListHandler (some ⟨jobListFilter exObjRef [exJob]⟩)
        { exOptions with disableLabels := true } ∧
    (∀ job, job ∈ jobListFilter exObjRef [exJob] ↔
      (job ∈ [exJob] ∧ ∃ ref ∈ job.ownerReferences,
        ref.apiVersion = exObjRef.apiVersion ∧ ref.kind = exObjRef.kind ∧
          ref.name = exObjRef.name)) :=
  c10_job_list_view_key_and_filter exObjRef exOptions exStoreA exStoreB [exJob]
    rfl rfl

end Octant
